import Mathlib

/-!
Verification of the hikingclub drive routes (routes/api/drives router).

The definitions below are a shallow embedding of the Express route handlers
for drives: the date validator used by create and update, and the handlers
for get / create / update / delete / join / leave / add comment / delete
comment.  The document store is modelled as a list of Drive records; mongoose
`findById` on a malformed ObjectId string throws a CastError with
`kind = 'ObjectId'`, modelled by the `castError` result.  JavaScript `NaN`
from `parseInt` is modelled as `none : Option Int`; every comparison with
`NaN` is false.
-/

namespace HikingClub

/-- Value of a hexadecimal digit character, `none` for a non-digit. -/
def hexDigitVal (c : Char) : Option Nat :=
  if '0' ≤ c ∧ c ≤ '9' then some (c.toNat - '0'.toNat)
  else if 'a' ≤ c ∧ c ≤ 'f' then some (c.toNat - 'a'.toNat + 10)
  else if 'A' ≤ c ∧ c ≤ 'F' then some (c.toNat - 'A'.toNat + 10)
  else none

/-- Accumulate leading digits of the given radix, as JavaScript `parseInt`
does: stop at the first character that is not a digit of the radix; `none`
when no digit was consumed at all (the `NaN` case). -/
def takeRadix (radix : Nat) : List Char → Option Nat → Option Nat
  | [], acc => acc
  | c :: rest, acc =>
    match hexDigitVal c with
    | some v =>
      if v < radix then takeRadix radix rest (some ((acc.getD 0) * radix + v))
      else acc
    | none => acc

/-- Splits a character list at every occurrence of `sep`, the accumulator
holding the current token reversed. -/
def splitAux (sep : Char) : List Char → List Char → List String
  | [], cur => [String.mk cur.reverse]
  | c :: rest, cur =>
    if c = sep then String.mk cur.reverse :: splitAux sep rest []
    else splitAux sep rest (c :: cur)

/-- JavaScript `str.split(sep)` for a single-character separator: always a
non-empty (hence truthy) array, with empty tokens kept. -/
def splitJS (sep : Char) (s : String) : List String :=
  splitAux sep s.data []

/-- JavaScript `parseInt(str)` with no radix argument: skip leading
whitespace, optional sign, `0x`/`0X` prefix selects base 16, otherwise base
10; trailing garbage is ignored; `none` models `NaN`. -/
def parseIntJS (s : String) : Option Int :=
  let cs := s.data.dropWhile (fun c => c.isWhitespace)
  let signed : Bool × List Char :=
    match cs with
    | '-' :: rest => (true, rest)
    | '+' :: rest => (false, rest)
    | rest => (false, rest)
  let mag : Option Nat :=
    match signed.2 with
    | '0' :: 'x' :: rest => takeRadix 16 rest none
    | '0' :: 'X' :: rest => takeRadix 16 rest none
    | rest => takeRadix 10 rest none
  mag.map (fun n => if signed.1 then -(n : Int) else (n : Int))

/-- `a < b` where `a` may be `NaN`: every comparison with `NaN` is false. -/
def jsLt (a : Option Int) (b : Int) : Bool :=
  match a with
  | none => false
  | some x => x < b

/-- `a <= b` where `a` may be `NaN`. -/
def jsLe (a : Option Int) (b : Int) : Bool :=
  match a with
  | none => false
  | some x => x ≤ b

/-- `a > b` where `a` may be `NaN`. -/
def jsGt (a : Option Int) (b : Int) : Bool :=
  match a with
  | none => false
  | some x => b < x

/-- `a == b` where `a` may be `NaN` (`NaN == b` is false). -/
def jsEq (a : Option Int) (b : Int) : Bool :=
  match a with
  | none => false
  | some x => x = b

/-- The server's current date as the handlers read it from `new Date()`:
`d = curr.getDate()` (day of month, 1-based), `m = curr.getMonth()`
(month, 0-based: January is 0), `y = curr.getFullYear()`. -/
structure CurrDate where
  d : Int
  m : Int
  y : Int
deriving Repr, DecidableEq

/-- The custom `leavingDate` validator attached to `check('leavingDate')` in
both the create route (POST /drives) and the update route (PUT /drives/:id);
the two callbacks are identical except that create also tests `!date`, which
never fires because `split` always returns a truthy array.  Splits the input
on `/`, maps `parseInt` over the tokens, rejects when there are not exactly
3 tokens or the string is not exactly 10 characters, then rejects when
`(date[0] < m && date[2] == y) || (date[0] <= m && date[1] < d && date[2] == y)
|| date[2] < y || date[0] > 12 || date[1] > 31 || date[1] <= 0`.
Returns `true` exactly when the callback returns `true` (accepts);
`false` models the callback throwing its validation `Error`. -/
def leavingDateValidator (curr : CurrDate) (leavingDate : String) : Bool :=
  let date := (splitJS '/' leavingDate).map parseIntJS
  if date.length ≠ 3 ∨ leavingDate.length ≠ 10 then
    false
  else if (jsLt (date.getD 0 none) curr.m && jsEq (date.getD 2 none) curr.y) ||
      (jsLe (date.getD 0 none) curr.m && jsLt (date.getD 1 none) curr.d &&
        jsEq (date.getD 2 none) curr.y) ||
      jsLt (date.getD 2 none) curr.y ||
      jsGt (date.getD 0 none) 12 ||
      jsGt (date.getD 1 none) 31 ||
      jsLe (date.getD 1 none) 0 then
    false
  else
    true

/-- A user id (`req.user.id` / `user.id`, the string form of the ObjectId). -/
abbrev UserId := String

/-- The fields of a User record read by the drive routes
(`User.findById(req.user.id).select('-password')`). -/
structure UserRec where
  id : UserId
  name : String
  phone : String
  avatar : String
deriving Repr, DecidableEq

/-- The fields of a Profile record read by the drive routes; a field is
`none` when it is not set on the stored document (JS `undefined`). -/
structure ProfileRec where
  grade : Option String
  type_ : Option String
  exp : Option String
  skills : Option (List String)
deriving Repr, DecidableEq

/-- JS truthiness of a possibly-absent string field (`if (profile.grade)`):
`undefined` and the empty string are falsy. -/
def jsTruthyStr (v : Option String) : Bool :=
  match v with
  | none => false
  | some s => s ≠ ""

/-- JS truthiness of a possibly-absent array field (`if (profile.skills)`):
any array, even empty, is truthy. -/
def jsTruthyArr (v : Option (List String)) : Bool :=
  v.isSome

/-- An entry of a drive's embedded `group` array (DriveSchema.group):
a snapshot of the joining user's User and Profile fields plus the `date`
timestamp the schema defaults to `Date.now`. -/
structure GroupEntry where
  user : UserId
  name : String
  phone : String
  avatar : String
  grade : Option String
  type_ : Option String
  exp : Option String
  skills : Option (List String)
  date : Nat
deriving Repr, DecidableEq

/-- An entry of a drive's embedded `comments` array (DriveSchema.comments):
`id` is the subdocument `_id` mongoose assigns, `date` defaults to
`Date.now`. -/
structure Comment where
  id : String
  user : UserId
  text : String
  name : String
  avatar : String
  date : Nat
deriving Repr, DecidableEq

/-- A Drive document.  `id` is the document `_id` as a string; `user` is the
owning user's id; the trip field is named `hike` as the route handlers write
it; `seats` is a JS number, modelled as `Int` (the update route coerces the
validated numeric body string). -/
structure Drive where
  id : String
  user : UserId
  name : String
  avatar : String
  leavingDate : String
  leavingTime : String
  hike : String
  seats : Int
  description : String
  group : List GroupEntry
  comments : List Comment
  date : Nat
deriving Repr, DecidableEq

/-- Result of `Drive.findById(id)`: a malformed id makes mongoose throw a
CastError with `kind = 'ObjectId'` (`castError`); a well-formed id that
matches no document resolves to `null` (`notFound`). -/
inductive FindResult where
  | castError
  | notFound
  | found (d : Drive)
deriving Repr, DecidableEq

/-- A string is castable to an ObjectId exactly when it is 24 hex
characters. -/
def isValidObjectId (s : String) : Bool :=
  s.length = 24 && s.data.all (fun c => (hexDigitVal c).isSome)

/-- The document store, a list of Drive documents. -/
abbrev DriveDb := List Drive

/-- `Drive.findById(id)` over the modelled store: CastError on a malformed
id, otherwise the first document whose `_id` equals `id`, or `null`. -/
def findById (db : DriveDb) (id : String) : FindResult :=
  if isValidObjectId id then
    match db.find? (fun d => d.id = id) with
    | some d => .found d
    | none => .notFound
  else
    .castError

/-- `drive.save()` after mutating a fetched document: writes the document
back in place of the stored document with the same `_id`. -/
def saveDrive (db : DriveDb) (d : Drive) : DriveDb :=
  db.map (fun x => if x.id = d.id then d else x)

/-- The JSON value a handler responds with. -/
inductive Payload where
  | drive (d : Drive)
  | group (g : List GroupEntry)
  | comments (c : List Comment)
  | message (msg : String)
  | validationErrors
  | serverError
deriving Repr, DecidableEq

/-- An HTTP response: status code and JSON body.  `validationErrors` stands
for the `{errors: [...]}` array from express-validator, `serverError` for
the plain-text `'Server Error'` body. -/
structure HttpRes where
  status : Nat
  body : Payload
deriving Repr, DecidableEq

/-- The request body of POST /drives and PUT /drives/:id.  String fields
model the raw body fields; `seats` is modelled as the number mongoose stores
(the create route only checks it non-empty, the update route also checks
`isNumeric`; both checks hold of any `Int`). -/
structure DriveBody where
  leavingDate : String
  leavingTime : String
  hike : String
  seats : Int
  description : String
deriving Repr, DecidableEq

/-- The express-validator middleware stack shared by POST /drives and
PUT /drives/:id: every field non-empty and the custom `leavingDate`
validator; the `seats` checks (`notEmpty`, and `isNumeric` on update) hold
of the modelled numeric `seats`. -/
def validDriveBody (curr : CurrDate) (b : DriveBody) : Bool :=
  b.leavingDate ≠ "" && leavingDateValidator curr b.leavingDate &&
    b.leavingTime ≠ "" && b.hike ≠ "" && b.description ≠ ""

/-- GET /drives/:id — 404 when the id resolves to no document and 404 from
the catch block when the id is malformed (`err.kind === 'ObjectId'`). -/
def getDriveById (db : DriveDb) (id : String) : HttpRes :=
  match findById db id with
  | .castError => ⟨404, .message "Drive not found"⟩
  | .notFound => ⟨404, .message "Drive not found"⟩
  | .found d => ⟨200, .drive d⟩

/-- The Drive document POST /drives constructs (`new Drive({...})`): the
caller is the owner and is seeded as the single group entry, built from the
User and Profile fields; `newId` and `now` are the `_id` and timestamps
mongoose fills in. -/
def newDriveDoc (user : UserRec) (p : ProfileRec) (b : DriveBody)
    (newId : String) (now : Nat) : Drive :=
  { id := newId
    user := user.id
    name := user.name
    avatar := user.avatar
    leavingDate := b.leavingDate
    leavingTime := b.leavingTime
    hike := b.hike
    seats := b.seats
    description := b.description
    group := [{ user := user.id, name := user.name, phone := user.phone,
                avatar := user.avatar, grade := p.grade,
                type_ := p.type_, exp := p.exp, skills := p.skills,
                date := now }]
    comments := []
    date := now }

/-- POST /drives — after validation, fetches the caller's User and Profile
and builds the new Drive with the caller seeded as the only group entry.
When the caller has no Profile, `profile.grade` throws a TypeError on
`null`, which the catch block turns into a 500 `'Server Error'` with
nothing persisted. -/
def createDrive (db : DriveDb) (user : UserRec) (profile : Option ProfileRec)
    (b : DriveBody) (curr : CurrDate) (newId : String) (now : Nat) :
    HttpRes × DriveDb :=
  if ¬ validDriveBody curr b then
    (⟨400, .validationErrors⟩, db)
  else
    match profile with
    | none => (⟨500, .serverError⟩, db)
    | some p =>
      (⟨200, .drive (newDriveDoc user p b newId now)⟩,
        db ++ [newDriveDoc user p b newId now])

/-- PUT /drives/:id — validation, then 404 when the drive is missing, 401
when the caller is not the owner, 400 when `seats < 0`, otherwise a `$set`
of exactly {user, avatar, leavingDate, leavingTime, hike, seats,
description}.  The catch block maps a malformed id (CastError) to status
400. -/
def updateDrive (db : DriveDb) (callerId : UserId) (caller : UserRec)
    (id : String) (b : DriveBody) (curr : CurrDate) : HttpRes × DriveDb :=
  if ¬ validDriveBody curr b then
    (⟨400, .validationErrors⟩, db)
  else
    match findById db id with
    | .castError => (⟨400, .message "Drive not found"⟩, db)
    | .notFound => (⟨404, .message "Drive not found"⟩, db)
    | .found drive =>
      if drive.user ≠ callerId then
        (⟨401, .message "User not Authorized"⟩, db)
      else if b.seats < 0 then
        (⟨400, .message "Enter positive number of seats"⟩, db)
      else
        let d' : Drive :=
          { drive with
            user := callerId
            avatar := caller.avatar
            leavingDate := b.leavingDate
            leavingTime := b.leavingTime
            hike := b.hike
            seats := b.seats
            description := b.description }
        (⟨200, .drive d'⟩, saveDrive db d')

/-- DELETE /drives/:id — 404 when missing, 401 when the caller is not the
owner, otherwise `drive.remove()`.  The catch block maps a malformed id
to status 400. -/
def deleteDrive (db : DriveDb) (callerId : UserId) (id : String) :
    HttpRes × DriveDb :=
  match findById db id with
  | .castError => (⟨400, .message "Drive not found"⟩, db)
  | .notFound => (⟨404, .message "Drive not found"⟩, db)
  | .found drive =>
    if drive.user ≠ callerId then
      (⟨401, .message "User not authorized"⟩, db)
    else
      (⟨200, .message "Drive removed"⟩, db.filter (fun x => x.id ≠ drive.id))

/-- The membership snapshot PUT /drives/join/:id builds: User fields always,
Profile fields only when truthy on the Profile. -/
def joinEntry (user : UserRec) (p : ProfileRec) (now : Nat) : GroupEntry :=
  { user := user.id
    name := user.name
    phone := user.phone
    avatar := user.avatar
    grade := if jsTruthyStr p.grade then p.grade else none
    type_ := if jsTruthyStr p.type_ then p.type_ else none
    exp := if jsTruthyStr p.exp then p.exp else none
    skills := if jsTruthyArr p.skills then p.skills else none
    date := now }

/-- PUT /drives/join/:id — 404 when missing; 400 `'Drive already joined'`
when the caller's id already appears in `group`; 400 `'Drive full'` when
`seats < 1`; 400 when the caller has no Profile; otherwise unshifts the
membership snapshot and decrements `seats`.  The catch block maps a
malformed id to status 400. -/
def joinDrive (db : DriveDb) (user : UserRec) (profile : Option ProfileRec)
    (id : String) (now : Nat) : HttpRes × DriveDb :=
  match findById db id with
  | .castError => (⟨400, .message "Drive not found"⟩, db)
  | .notFound => (⟨404, .message "Drive not found"⟩, db)
  | .found drive =>
    if (drive.group.filter (fun join => join.user = user.id)).length > 0 then
      (⟨400, .message "Drive already joined"⟩, db)
    else if drive.seats < 1 then
      (⟨400, .message "Drive full"⟩, db)
    else
      match profile with
      | none => (⟨400, .message "You need a profile to join drives"⟩, db)
      | some p =>
        let d' : Drive :=
          { drive with
            group := joinEntry user p now :: drive.group
            seats := drive.seats - 1 }
        (⟨200, .group d'.group⟩, saveDrive db d')

/-- PUT /drives/leave/:id — 404 when missing; 400 `'Drive not joined'` when
the caller's id is not in `group`; otherwise splices out the entry at the
first index whose user equals the caller and increments `seats`.  The catch
block maps a malformed id to status 400. -/
def leaveDrive (db : DriveDb) (callerId : UserId) (id : String) :
    HttpRes × DriveDb :=
  match findById db id with
  | .castError => (⟨400, .message "Drive not found"⟩, db)
  | .notFound => (⟨404, .message "Drive not found"⟩, db)
  | .found drive =>
    if (drive.group.filter (fun join => join.user = callerId)).length = 0 then
      (⟨400, .message "Drive not joined"⟩, db)
    else
      let removeIndex := (drive.group.map (fun join => join.user)).indexOf callerId
      let d' : Drive :=
        { drive with
          group := drive.group.eraseIdx removeIndex
          seats := drive.seats + 1 }
      (⟨200, .group d'.group⟩, saveDrive db d')

/-- POST /drives/comment/:id — 400 when `text` is empty; the handler has no
null check on the fetched drive, so a well-formed id that resolves to no
document reaches `drive.comments.unshift` on `null`, throws a TypeError and
the catch block answers 500 `'Server Error'`; a malformed id (CastError) is
answered 404.  On success, unshifts {text, name, avatar, user} (the `date`
and subdocument `_id` filled by the schema defaults) and returns the
updated comments array. -/
def addComment (db : DriveDb) (user : UserRec) (id : String) (text : String)
    (newCommentId : String) (now : Nat) : HttpRes × DriveDb :=
  if text = "" then
    (⟨400, .validationErrors⟩, db)
  else
    match findById db id with
    | .castError => (⟨404, .message "Drive not found"⟩, db)
    | .notFound => (⟨500, .serverError⟩, db)
    | .found drive =>
      let newComment : Comment :=
        { id := newCommentId, user := user.id, text := text,
          name := user.name, avatar := user.avatar, date := now }
      let d' : Drive := { drive with comments := newComment :: drive.comments }
      (⟨200, .comments d'.comments⟩, saveDrive db d')

/-- DELETE /drives/comment/:id/:comment_id — a malformed drive id is
answered 404; a well-formed id resolving to no document reaches
`drive.comments.find` on `null`, throws and is answered 500.  Looks the
comment up by `comment_id`; 404 when absent; 401 when its author is not the
caller; then splices at the index of the FIRST comment whose author is the
caller — not necessarily the comment `comment_id` names. -/
def deleteComment (db : DriveDb) (callerId : UserId) (id : String)
    (commentId : String) : HttpRes × DriveDb :=
  match findById db id with
  | .castError => (⟨404, .message "Drive not found"⟩, db)
  | .notFound => (⟨500, .serverError⟩, db)
  | .found drive =>
    match drive.comments.find? (fun comment => comment.id = commentId) with
    | none => (⟨404, .message "Comment does not exist"⟩, db)
    | some comment =>
      if comment.user ≠ callerId then
        (⟨401, .message "User not authorized"⟩, db)
      else
        let removeIndex := (drive.comments.map (fun c => c.user)).indexOf callerId
        let d' : Drive :=
          { drive with comments := drive.comments.eraseIdx removeIndex }
        (⟨200, .comments d'.comments⟩, saveDrive db d')

/-- A membership request against a fixed drive: the data of one
PUT /drives/join/:id or PUT /drives/leave/:id call. -/
inductive MemberOp where
  | join (user : UserRec) (profile : Option ProfileRec) (now : Nat)
  | leave (callerId : UserId)
deriving Repr, DecidableEq

/-- Dispatches one membership request to its handler. -/
def applyMemberOp (db : DriveDb) (id : String) : MemberOp → HttpRes × DriveDb
  | .join user profile now => joinDrive db user profile id now
  | .leave callerId => leaveDrive db callerId id

/-- Runs a sequence of membership requests in order, `some` exactly when
every one of them answers 200. -/
def applyMemberOps (db : DriveDb) (id : String) : List MemberOp → Option DriveDb
  | [] => some db
  | op :: rest =>
    if (applyMemberOp db id op).1.status = 200 then
      applyMemberOps (applyMemberOp db id op).2 id rest
    else
      none

/-- Number of join requests in a sequence. -/
def countJoins : List MemberOp → Nat
  | [] => 0
  | .join _ _ _ :: rest => countJoins rest + 1
  | .leave _ :: rest => countJoins rest

/-- Number of leave requests in a sequence. -/
def countLeaves : List MemberOp → Nat
  | [] => 0
  | .join _ _ _ :: rest => countLeaves rest
  | .leave _ :: rest => countLeaves rest + 1

/-! Concrete fixtures used by the witness and counterexample theorems. -/

/-- A well-formed ObjectId string for the fixture drive. -/
def driveId0 : String := "aaaaaaaaaaaaaaaaaaaaaaaa"

/-- Fixture: the drive's owner. -/
def userA : UserRec := { id := "u1", name := "Alice", phone := "555", avatar := "avA" }

/-- Fixture: a second user. -/
def userB : UserRec := { id := "u2", name := "Bob", phone := "556", avatar := "avB" }

/-- Fixture: a complete profile. -/
def profileB : ProfileRec :=
  { grade := some "5.9", type_ := some "driver", exp := some "2y", skills := some ["nav"] }

/-- Fixture: the server date June 15 2025, as `new Date()` reports it
(`getDate() = 15`, `getMonth() = 5`, `getFullYear() = 2025`). -/
def curr0 : CurrDate := { d := 15, m := 5, y := 2025 }

/-- Fixture: a request body that passes the middleware validation at
`curr0`. -/
def body0 : DriveBody :=
  { leavingDate := "07/20/2025", leavingTime := "08:00", hike := "Si",
    seats := 3, description := "carpool" }

/-- Fixture: the owner's seeded group entry. -/
def entryA : GroupEntry :=
  { user := "u1", name := "Alice", phone := "555", avatar := "avA",
    grade := some "5.9", type_ := some "driver", exp := some "2y",
    skills := some ["nav"], date := 0 }

/-- Fixture: a drive owned by `userA` with two free seats and no
comments. -/
def drive0 : Drive :=
  { id := driveId0, user := "u1", name := "Alice", avatar := "avA",
    leavingDate := "07/20/2025", leavingTime := "08:00", hike := "Si",
    seats := 2, description := "carpool", group := [entryA], comments := [],
    date := 0 }

/-- Fixture: a first comment authored by the owner. -/
def commentA : Comment :=
  { id := "c1", user := "u1", text := "first", name := "Alice",
    avatar := "avA", date := 1 }

/-- Fixture: a second comment, also authored by the owner. -/
def commentB : Comment :=
  { id := "c2", user := "u1", text := "second", name := "Alice",
    avatar := "avA", date := 2 }

/-- Fixture: the drive with both of the owner's comments on it. -/
def driveC : Drive := { drive0 with comments := [commentA, commentB] }

/-! Store lemmas. -/

theorem findById_castError {id : String} (db : DriveDb)
    (h : isValidObjectId id = false) : findById db id = .castError := by
  simp [findById, h]

theorem findById_found_props {db : DriveDb} {id : String} {d : Drive}
    (h : findById db id = .found d) : isValidObjectId id = true ∧ d.id = id := by
  by_cases hv : isValidObjectId id
  · refine ⟨hv, ?_⟩
    unfold findById at h
    rw [if_pos hv] at h
    cases hf : db.find? (fun x => x.id = id) with
    | none => rw [hf] at h; exact absurd h (by simp)
    | some x =>
      rw [hf] at h
      simp only [] at h
      injection h with hx
      subst hx
      simpa using List.find?_some hf
  · unfold findById at h
    rw [if_neg hv] at h
    exact absurd h (by simp)

theorem findById_found_find? {db : DriveDb} {id : String} {d : Drive}
    (h : findById db id = .found d) :
    db.find? (fun x => x.id = id) = some d := by
  obtain ⟨hv, -⟩ := findById_found_props h
  unfold findById at h
  rw [if_pos hv] at h
  cases hf : db.find? (fun x => x.id = id) with
  | none => rw [hf] at h; exact absurd h (by simp)
  | some x =>
    rw [hf] at h
    simp only [] at h
    injection h with hx
    exact congrArg some hx

theorem find?_replace {id : String} {d' : Drive} (h' : d'.id = id) :
    ∀ {l : List Drive} {d : Drive}, l.find? (fun x => x.id = id) = some d →
      (l.map (fun x => if x.id = d'.id then d' else x)).find?
        (fun x => x.id = id) = some d' := by
  intro l
  induction l with
  | nil => intro d h; simp at h
  | cons a t ih =>
    intro d h
    by_cases ha : a.id = id
    · simp only [List.map_cons]
      rw [if_pos (ha.trans h'.symm)]
      exact List.find?_cons_of_pos _ (by simp [h'])
    · simp only [List.map_cons]
      rw [if_neg (fun hc => ha (hc.trans h'))]
      rw [List.find?_cons_of_neg _ (by simp [ha])]
      rw [List.find?_cons_of_neg _ (by simp [ha])] at h
      exact ih h

theorem findById_saveDrive {db : DriveDb} {id : String} {d d' : Drive}
    (h : findById db id = .found d) (h' : d'.id = id) :
    findById (saveDrive db d') id = .found d' := by
  obtain ⟨hv, -⟩ := findById_found_props h
  have hf := findById_found_find? h
  unfold findById saveDrive
  rw [if_pos hv, find?_replace h' hf]

/-- Claim C2: at the server date June 15 2025 the `leavingDate` validator
accepts the current date `"06/15/2025"` and rejects `"13/01/2025"`
(month > 12), but — because `getMonth()` is 0-based while the input month
token is 1-based — it also ACCEPTS `"06/14/2025"`, a date exactly one day
in the past in the same month and year, contradicting the route's own
documentation (`leavingDate must be ... the current date or a future
date`) and the claim's third conjunct. -/
theorem leavingDateValidator_one_day_past_accepted :
    leavingDateValidator curr0 "06/15/2025" = true ∧
    leavingDateValidator curr0 "13/01/2025" = false ∧
    leavingDateValidator curr0 "06/14/2025" = true := by
  decide

/-- Claim C10: any 10-character string that splits on `/` into exactly three
tokens, none of which `parseInt` can read a number from, is accepted by the
`leavingDate` validator: every comparison against `NaN` is false, so neither
the format branch nor the temporal branch rejects. -/
theorem leavingDateValidator_accepts_nan_tokens (curr : CurrDate) (s : String)
    (hlen : s.length = 10)
    (htok : (splitJS '/' s).length = 3)
    (hnan : ∀ t ∈ splitJS '/' s, parseIntJS t = none) :
    leavingDateValidator curr s = true := by
  obtain ⟨t0, t1, t2, hs⟩ : ∃ a b c, splitJS '/' s = [a, b, c] := by
    match h : splitJS '/' s with
    | [a, b, c] => exact ⟨a, b, c, rfl⟩
    | [] | [_] | [_, _] | _ :: _ :: _ :: _ :: _ => rw [h] at htok; simp at htok
  have h0 : parseIntJS t0 = none := hnan t0 (by rw [hs]; simp)
  have h1 : parseIntJS t1 = none := hnan t1 (by rw [hs]; simp)
  have h2 : parseIntJS t2 = none := hnan t2 (by rw [hs]; simp)
  unfold leavingDateValidator
  rw [hs]
  simp [h0, h1, h2, hlen, jsLt, jsLe, jsGt, jsEq]

/-- Witness for C10: `"aa/bb/cccc"` is 10 characters, splits into three
tokens, every token parses to `NaN`, and the validator accepts it. -/
theorem leavingDateValidator_accepts_nan_tokens_witness :
    leavingDateValidator curr0 "aa/bb/cccc" = true :=
  leavingDateValidator_accepts_nan_tokens curr0 "aa/bb/cccc" (by decide)
    (by decide) (by decide)

/-- Claim C1: for an authenticated caller, non-empty text, and a drive the
id resolves to, POST /drives/comment/:id prepends the comment built from
the text and the caller's id, name and avatar (with the schema-default
timestamp), persists the drive, and returns the updated comments array. -/
theorem addComment_prepends (db : DriveDb) (user : UserRec)
    (id text newCommentId : String) (now : Nat) (drive : Drive)
    (htext : text ≠ "") (hfind : findById db id = .found drive) :
    addComment db user id text newCommentId now =
      ({ status := 200,
         body := Payload.comments
           ({ id := newCommentId, user := user.id, text := text,
              name := user.name, avatar := user.avatar,
              date := now } :: drive.comments) },
        saveDrive db { drive with comments :=
          { id := newCommentId, user := user.id, text := text,
            name := user.name, avatar := user.avatar,
            date := now } :: drive.comments }) := by
  simp [addComment, htext, hfind]

/-- Witness for C1: `userB` comments `"hello"` on the stored fixture
drive. -/
theorem addComment_prepends_witness :
    addComment [drive0] userB driveId0 "hello" "c9" 7 =
      ({ status := 200,
         body := Payload.comments
           ({ id := "c9", user := userB.id, text := "hello",
              name := userB.name, avatar := userB.avatar,
              date := 7 } :: drive0.comments) },
        saveDrive [drive0] { drive0 with comments :=
          { id := "c9", user := userB.id, text := "hello",
            name := userB.name, avatar := userB.avatar,
            date := 7 } :: drive0.comments }) :=
  addComment_prepends [drive0] userB driveId0 "hello" "c9" 7 drive0
    (by decide) (by decide)

/-- Claim C5: failing mutations leave the store untouched.  Joining a drive
with `seats = 0` as a caller whose id is not in `group` answers 400
`'Drive full'` with the store unchanged; updating or deleting as a caller
who is not the owner answers 401 with the store unchanged. -/
theorem failed_mutations_leave_state :
    (∀ (db : DriveDb) (user : UserRec) (profile : Option ProfileRec)
        (id : String) (now : Nat) (drive : Drive),
      findById db id = .found drive →
      drive.seats = 0 →
      (drive.group.filter (fun join => join.user = user.id)).length = 0 →
      joinDrive db user profile id now = (⟨400, .message "Drive full"⟩, db)) ∧
    (∀ (db : DriveDb) (callerId : UserId) (caller : UserRec) (id : String)
        (b : DriveBody) (curr : CurrDate) (drive : Drive),
      validDriveBody curr b = true →
      findById db id = .found drive →
      drive.user ≠ callerId →
      updateDrive db callerId caller id b curr =
        (⟨401, .message "User not Authorized"⟩, db)) ∧
    (∀ (db : DriveDb) (callerId : UserId) (id : String) (drive : Drive),
      findById db id = .found drive →
      drive.user ≠ callerId →
      deleteDrive db callerId id = (⟨401, .message "User not authorized"⟩, db)) := by
  refine ⟨?_, ?_, ?_⟩
  · intro db user profile id now drive hfind hseats hjoin
    simp [joinDrive, hfind, hjoin, hseats]
  · intro db callerId caller id b curr drive hb hfind hown
    simp [updateDrive, hb, hfind, hown]
  · intro db callerId id drive hfind hown
    simp [deleteDrive, hfind, hown]

/-- Witness for C5: on the fixture drive with no free seat, `userB` cannot
join; as the non-owner `"u2"`, update and delete are refused with 401 and
the stored list is returned unchanged. -/
theorem failed_mutations_leave_state_witness :
    joinDrive [{ drive0 with seats := 0 }] userB (some profileB) driveId0 5 =
      (⟨400, .message "Drive full"⟩, [{ drive0 with seats := 0 }]) ∧
    updateDrive [drive0] "u2" userB driveId0 body0 curr0 =
      (⟨401, .message "User not Authorized"⟩, [drive0]) ∧
    deleteDrive [drive0] "u2" driveId0 =
      (⟨401, .message "User not authorized"⟩, [drive0]) :=
  ⟨failed_mutations_leave_state.1 [{ drive0 with seats := 0 }] userB
      (some profileB) driveId0 5 { drive0 with seats := 0 }
      (by decide) (by decide) (by decide),
    failed_mutations_leave_state.2.1 [drive0] "u2" userB driveId0 body0 curr0
      drive0 (by decide) (by decide) (by decide),
    failed_mutations_leave_state.2.2 [drive0] "u2" driveId0 drive0
      (by decide) (by decide)⟩

/-- Claim C8: a successful owner update overwrites exactly
{user, avatar, leavingDate, leavingTime, hike, seats, description} and
leaves `group`, `comments` (and `id`, `name`, `date`) untouched. -/
theorem updateDrive_frame (db : DriveDb) (callerId : UserId) (caller : UserRec)
    (id : String) (b : DriveBody) (curr : CurrDate) (drive : Drive)
    (hb : validDriveBody curr b = true)
    (hfind : findById db id = .found drive)
    (hown : drive.user = callerId)
    (hseats : 0 ≤ b.seats) :
    ∃ d', updateDrive db callerId caller id b curr =
        (⟨200, .drive d'⟩, saveDrive db d') ∧
      d'.user = callerId ∧ d'.avatar = caller.avatar ∧
      d'.leavingDate = b.leavingDate ∧ d'.leavingTime = b.leavingTime ∧
      d'.hike = b.hike ∧ d'.seats = b.seats ∧ d'.description = b.description ∧
      d'.group = drive.group ∧ d'.comments = drive.comments ∧
      d'.id = drive.id ∧ d'.name = drive.name ∧ d'.date = drive.date := by
  have key : updateDrive db callerId caller id b curr =
      ({ status := 200,
         body := Payload.drive { drive with
           user := callerId, avatar := caller.avatar,
           leavingDate := b.leavingDate, leavingTime := b.leavingTime,
           hike := b.hike, seats := b.seats,
           description := b.description } },
        saveDrive db { drive with
          user := callerId, avatar := caller.avatar,
          leavingDate := b.leavingDate, leavingTime := b.leavingTime,
          hike := b.hike, seats := b.seats,
          description := b.description }) := by
    simp [updateDrive, hb, hfind, hown, not_lt.mpr hseats]
  exact ⟨_, key, rfl, rfl, rfl, rfl, rfl, rfl, rfl, rfl, rfl, rfl, rfl, rfl⟩

/-- Witness for C8: the owner updates the fixture drive with `body0`. -/
theorem updateDrive_frame_witness :
    ∃ d', updateDrive [drive0] "u1" userA driveId0 body0 curr0 =
        (⟨200, .drive d'⟩, saveDrive [drive0] d') ∧
      d'.user = "u1" ∧ d'.avatar = userA.avatar ∧
      d'.leavingDate = body0.leavingDate ∧ d'.leavingTime = body0.leavingTime ∧
      d'.hike = body0.hike ∧ d'.seats = body0.seats ∧
      d'.description = body0.description ∧
      d'.group = drive0.group ∧ d'.comments = drive0.comments ∧
      d'.id = drive0.id ∧ d'.name = drive0.name ∧ d'.date = drive0.date :=
  updateDrive_frame [drive0] "u1" userA driveId0 body0 curr0 drive0
    (by decide) (by decide) (by decide) (by decide)

/-- Claim C9: an authenticated caller without a Profile record is not given
a domain-level 400 by create-drive — the handler dereferences the `null`
profile (`profile.grade`), throws, and the catch block answers a generic
500 `'Server Error'` with no Drive persisted — whereas join answers 400
`'You need a profile to join drives'`. -/
theorem createDrive_no_profile_500 :
    (∀ (db : DriveDb) (user : UserRec) (b : DriveBody) (curr : CurrDate)
        (newId : String) (now : Nat),
      validDriveBody curr b = true →
      createDrive db user none b curr newId now = (⟨500, .serverError⟩, db)) ∧
    (∀ (db : DriveDb) (user : UserRec) (id : String) (now : Nat) (drive : Drive),
      findById db id = .found drive →
      (drive.group.filter (fun join => join.user = user.id)).length = 0 →
      1 ≤ drive.seats →
      joinDrive db user none id now =
        (⟨400, .message "You need a profile to join drives"⟩, db)) := by
  constructor
  · intro db user b curr newId now hb
    simp [createDrive, hb]
  · intro db user id now drive hfind hjoin hseats
    simp [joinDrive, hfind, hjoin, not_lt.mpr hseats]

/-- Witness for C9: `userB` with no profile gets 500 from create with a
valid body and nothing persisted, and 400 from join on the fixture
drive. -/
theorem createDrive_no_profile_500_witness :
    createDrive [] userB none body0 curr0 "bbbbbbbbbbbbbbbbbbbbbbbb" 9 =
      (⟨500, .serverError⟩, []) ∧
    joinDrive [drive0] userB none driveId0 9 =
      (⟨400, .message "You need a profile to join drives"⟩, [drive0]) :=
  ⟨createDrive_no_profile_500.1 [] userB body0 curr0
      "bbbbbbbbbbbbbbbbbbbbbbbb" 9 (by decide),
    createDrive_no_profile_500.2 [drive0] userB driveId0 9 drive0
      (by decide) (by decide) (by decide)⟩

/-! List helper lemmas. -/

theorem indexOf_lt_length_of_mem {a : String} :
    ∀ {l : List String}, a ∈ l → l.indexOf a < l.length := by
  intro l
  induction l with
  | nil => simp
  | cons b t ih =>
    intro h
    rw [List.indexOf_cons]
    by_cases hb : b == a
    · simp [hb]
    · rcases List.mem_cons.mp h with h1 | h2
      · exact absurd (by simp [h1]) hb
      · simpa [hb] using Nat.succ_lt_succ (ih h2)

theorem exists_of_filter_length_ne_zero {α : Type} {p : α → Bool} {l : List α}
    (h : (l.filter p).length ≠ 0) : ∃ a ∈ l, p a := by
  by_contra hn
  push_neg at hn
  apply h
  rw [List.length_eq_zero, List.filter_eq_nil_iff]
  simpa using hn

theorem filter_length_pos_of_mem {α : Type} {p : α → Bool} {l : List α} {a : α}
    (ha : a ∈ l) (hp : p a) : 0 < (l.filter p).length := by
  rw [List.length_pos]
  intro hnil
  rw [List.filter_eq_nil_iff] at hnil
  exact absurd hp (by simpa using hnil a ha)

/-- Counterexample to C3 as stated: the fixture drive carries the comments
`[commentA (id "c1"), commentB (id "c2")]`, both authored by the caller
`"u1"`.  The caller targets comment id `"c2"`, but the handler splices at
the index of the FIRST comment authored by the caller, so `commentA` is
removed and the targeted `commentB` survives. -/
theorem deleteComment_removes_first_authored :
    deleteComment [driveC] "u1" driveId0 "c2" =
      (⟨200, .comments [commentB]⟩, [{ driveC with comments := [commentB] }]) := by
  decide

/-- Claim C3 (amended): removing a comment as a non-author of the targeted
comment answers 401 with the store unchanged; as its author, the handler
removes the first comment whose author id equals the caller's id — not
necessarily the targeted comment — and the comments length decreases by
exactly 1. -/
theorem deleteComment_spec :
    (∀ (db : DriveDb) (callerId : UserId) (id commentId : String)
        (drive : Drive) (comment : Comment),
      findById db id = .found drive →
      drive.comments.find? (fun c => c.id = commentId) = some comment →
      comment.user ≠ callerId →
      deleteComment db callerId id commentId =
        (⟨401, .message "User not authorized"⟩, db)) ∧
    (∀ (db : DriveDb) (callerId : UserId) (id commentId : String)
        (drive : Drive) (comment : Comment),
      findById db id = .found drive →
      drive.comments.find? (fun c => c.id = commentId) = some comment →
      comment.user = callerId →
      ∃ d', deleteComment db callerId id commentId =
          (⟨200, .comments d'.comments⟩, saveDrive db d') ∧
        d'.comments = drive.comments.eraseIdx
          ((drive.comments.map (fun c => c.user)).indexOf callerId) ∧
        d'.comments.length + 1 = drive.comments.length) := by
  constructor
  · intro db callerId id commentId drive comment hfind hc hne
    simp [deleteComment, hfind, hc, hne]
  · intro db callerId id commentId drive comment hfind hc heq
    have hmem : callerId ∈ drive.comments.map (fun c => c.user) :=
      List.mem_map.mpr ⟨comment, List.mem_of_find?_eq_some hc, heq⟩
    have hidx : (drive.comments.map (fun c => c.user)).indexOf callerId <
        drive.comments.length := by
      have := indexOf_lt_length_of_mem hmem
      rwa [List.length_map] at this
    have key : deleteComment db callerId id commentId =
        (⟨200, .comments (drive.comments.eraseIdx
            ((drive.comments.map (fun c => c.user)).indexOf callerId))⟩,
          saveDrive db { drive with
            comments := drive.comments.eraseIdx
              ((drive.comments.map (fun c => c.user)).indexOf callerId) }) := by
      simp [deleteComment, hfind, hc, heq]
    refine ⟨{ drive with
      comments := drive.comments.eraseIdx
        ((drive.comments.map (fun c => c.user)).indexOf callerId) }, key, rfl, ?_⟩
    show (drive.comments.eraseIdx
      ((drive.comments.map (fun c => c.user)).indexOf callerId)).length + 1 =
        drive.comments.length
    rw [List.length_eraseIdx_of_lt hidx]
    omega

/-- Witness for C3 (amended): `userB` cannot remove the owner's comment
(401, store unchanged); the owner removing their only comment makes the
length drop from 1 to 0. -/
theorem deleteComment_spec_witness :
    deleteComment [{ drive0 with comments := [commentA] }] "u2" driveId0 "c1" =
      (⟨401, .message "User not authorized"⟩,
        [{ drive0 with comments := [commentA] }]) ∧
    (∃ d', deleteComment [{ drive0 with comments := [commentA] }] "u1" driveId0 "c1" =
        (⟨200, .comments d'.comments⟩,
          saveDrive [{ drive0 with comments := [commentA] }] d') ∧
      d'.comments = [commentA].eraseIdx (([commentA].map (fun c => c.user)).indexOf "u1") ∧
      d'.comments.length + 1 = [commentA].length) :=
  ⟨deleteComment_spec.1 [{ drive0 with comments := [commentA] }] "u2" driveId0
      "c1" { drive0 with comments := [commentA] } commentA
      (by decide) (by decide) (by decide),
    deleteComment_spec.2 [{ drive0 with comments := [commentA] }] "u1" driveId0
      "c1" { drive0 with comments := [commentA] } commentA
      (by decide) (by decide) (by decide)⟩

/-- Counterexample to C4 as stated: with a body that passes validation,
PUT /drives/:id on the malformed id `"not-an-objectid"` answers status 400
(its catch block maps a CastError to 400), not 404. -/
theorem updateDrive_malformed_id_not_404 :
    (updateDrive [] "u1" userA "not-an-objectid" body0 curr0).1.status = 400 ∧
    ¬ (updateDrive [] "u1" userA "not-an-objectid" body0 curr0).1.status = 404 := by
  decide

/-- Claim C4 (amended): statuses of the drive-id operations on a bad id.
On a malformed id (CastError): get answers 404, update, delete, join and
leave answer 400 from their catch blocks, add/remove comment answer 404.
On a well-formed id that resolves to no record: get, update, delete, join
and leave answer 404, while add/remove comment dereference the null drive,
throw, and answer 500. -/
theorem drive_id_error_statuses :
    (∀ (db : DriveDb) (id : String), isValidObjectId id = false →
      ∀ (callerId : UserId) (caller user : UserRec) (profile : Option ProfileRec)
          (b : DriveBody) (curr : CurrDate) (now : Nat) (text cid commentId : String),
        validDriveBody curr b = true → text ≠ "" →
        (getDriveById db id).status = 404 ∧
        (updateDrive db callerId caller id b curr).1.status = 400 ∧
        (deleteDrive db callerId id).1.status = 400 ∧
        (joinDrive db user profile id now).1.status = 400 ∧
        (leaveDrive db callerId id).1.status = 400 ∧
        (addComment db user id text cid now).1.status = 404 ∧
        (deleteComment db callerId id commentId).1.status = 404) ∧
    (∀ (db : DriveDb) (id : String), findById db id = .notFound →
      ∀ (callerId : UserId) (caller user : UserRec) (profile : Option ProfileRec)
          (b : DriveBody) (curr : CurrDate) (now : Nat) (text cid commentId : String),
        validDriveBody curr b = true → text ≠ "" →
        (getDriveById db id).status = 404 ∧
        (updateDrive db callerId caller id b curr).1.status = 404 ∧
        (deleteDrive db callerId id).1.status = 404 ∧
        (joinDrive db user profile id now).1.status = 404 ∧
        (leaveDrive db callerId id).1.status = 404 ∧
        (addComment db user id text cid now).1.status = 500 ∧
        (deleteComment db callerId id commentId).1.status = 500) := by
  constructor
  · intro db id hv callerId caller user profile b curr now text cid commentId hb ht
    have hfind := findById_castError db hv
    exact ⟨by simp [getDriveById, hfind], by simp [updateDrive, hb, hfind],
      by simp [deleteDrive, hfind], by simp [joinDrive, hfind],
      by simp [leaveDrive, hfind], by simp [addComment, ht, hfind],
      by simp [deleteComment, hfind]⟩
  · intro db id hfind callerId caller user profile b curr now text cid commentId hb ht
    exact ⟨by simp [getDriveById, hfind], by simp [updateDrive, hb, hfind],
      by simp [deleteDrive, hfind], by simp [joinDrive, hfind],
      by simp [leaveDrive, hfind], by simp [addComment, ht, hfind],
      by simp [deleteComment, hfind]⟩

/-- Witness for C4 (amended): the statuses at a malformed id on an empty
store and at a well-formed id that matches no record. -/
theorem drive_id_error_statuses_witness :
    ((getDriveById [] "not-an-objectid").status = 404 ∧
      (updateDrive [] "u1" userA "not-an-objectid" body0 curr0).1.status = 400 ∧
      (deleteDrive [] "u1" "not-an-objectid").1.status = 400 ∧
      (joinDrive [] userB (some profileB) "not-an-objectid" 3).1.status = 400 ∧
      (leaveDrive [] "u1" "not-an-objectid").1.status = 400 ∧
      (addComment [] userB "not-an-objectid" "hi" "c9" 3).1.status = 404 ∧
      (deleteComment [] "u1" "not-an-objectid" "c1").1.status = 404) ∧
    ((getDriveById [] driveId0).status = 404 ∧
      (updateDrive [] "u1" userA driveId0 body0 curr0).1.status = 404 ∧
      (deleteDrive [] "u1" driveId0).1.status = 404 ∧
      (joinDrive [] userB (some profileB) driveId0 3).1.status = 404 ∧
      (leaveDrive [] "u1" driveId0).1.status = 404 ∧
      (addComment [] userB driveId0 "hi" "c9" 3).1.status = 500 ∧
      (deleteComment [] "u1" driveId0 "c1").1.status = 500) :=
  ⟨drive_id_error_statuses.1 [] "not-an-objectid" (by decide) "u1" userA userB
      (some profileB) body0 curr0 3 "hi" "c9" "c1" (by decide) (by decide),
    drive_id_error_statuses.2 [] driveId0 (by decide) "u1" userA userB
      (some profileB) body0 curr0 3 "hi" "c9" "c1" (by decide) (by decide)⟩

/-- Claim C7: the group list holds at most one entry per user id, and every
operation preserves this.  Creation seeds exactly one entry, the owner;
join refuses a caller whose id already appears in `group`; a successful
join by a fresh caller keeps the user ids nodup; leave only removes one
entry (`eraseIdx`), so it keeps them nodup as well. -/
theorem group_user_ids_nodup :
    (∀ (db : DriveDb) (user : UserRec) (p : ProfileRec) (b : DriveBody)
        (curr : CurrDate) (newId : String) (now : Nat),
      validDriveBody curr b = true →
      createDrive db user (some p) b curr newId now =
        (⟨200, .drive (newDriveDoc user p b newId now)⟩,
          db ++ [newDriveDoc user p b newId now]) ∧
      (newDriveDoc user p b newId now).group.map (fun join => join.user) =
        [user.id]) ∧
    (∀ (db : DriveDb) (user : UserRec) (profile : Option ProfileRec)
        (id : String) (now : Nat) (drive : Drive),
      findById db id = .found drive →
      user.id ∈ drive.group.map (fun join => join.user) →
      joinDrive db user profile id now =
        (⟨400, .message "Drive already joined"⟩, db)) ∧
    (∀ (db : DriveDb) (user : UserRec) (p : ProfileRec) (id : String)
        (now : Nat) (drive : Drive),
      findById db id = .found drive →
      (drive.group.map (fun join => join.user)).Nodup →
      (joinDrive db user (some p) id now).1.status = 200 →
      (joinDrive db user (some p) id now).2 = saveDrive db { drive with
        group := joinEntry user p now :: drive.group,
        seats := drive.seats - 1 } ∧
      ((joinEntry user p now :: drive.group).map
        (fun join => join.user)).Nodup) ∧
    (∀ (db : DriveDb) (callerId : UserId) (id : String) (drive : Drive),
      findById db id = .found drive →
      (drive.group.map (fun join => join.user)).Nodup →
      (leaveDrive db callerId id).1.status = 200 →
      (leaveDrive db callerId id).2 = saveDrive db { drive with
        group := drive.group.eraseIdx
          ((drive.group.map (fun join => join.user)).indexOf callerId),
        seats := drive.seats + 1 } ∧
      ((drive.group.eraseIdx
        ((drive.group.map (fun join => join.user)).indexOf callerId)).map
          (fun join => join.user)).Nodup) := by
  refine ⟨?_, ?_, ?_, ?_⟩
  · intro db user p b curr newId now hb
    exact ⟨by simp [createDrive, hb], by simp [newDriveDoc]⟩
  · intro db user profile id now drive hfind hmem
    obtain ⟨j, hj, hju⟩ := List.mem_map.mp hmem
    have hpos : 0 < (drive.group.filter (fun join => join.user = user.id)).length :=
      filter_length_pos_of_mem hj (by simp [hju])
    simp [joinDrive, hfind, hpos]
  · intro db user p id now drive hfind hnodup hstat
    by_cases h1 : (drive.group.filter (fun join => join.user = user.id)).length > 0
    · exact absurd (by simp [joinDrive, hfind, h1] : (joinDrive db user (some p) id now).1.status = 400)
        (by rw [hstat]; decide)
    · by_cases h2 : drive.seats < 1
      · exact absurd (by simp [joinDrive, hfind, h1, h2] :
          (joinDrive db user (some p) id now).1.status = 400) (by rw [hstat]; decide)
      · refine ⟨by simp [joinDrive, hfind, h1, h2], ?_⟩
        rw [List.map_cons]
        refine List.nodup_cons.mpr ⟨?_, hnodup⟩
        intro hmem
        obtain ⟨j, hj, hju⟩ := List.mem_map.mp hmem
        exact h1 (filter_length_pos_of_mem hj (by simp [joinEntry] at hju; simp [hju]))
  · intro db callerId id drive hfind hnodup hstat
    by_cases h1 : (drive.group.filter (fun join => join.user = callerId)).length = 0
    · exact absurd (by simp [leaveDrive, hfind, h1] :
        (leaveDrive db callerId id).1.status = 400) (by rw [hstat]; decide)
    · refine ⟨by simp [leaveDrive, hfind, h1], ?_⟩
      exact List.Nodup.sublist ((List.eraseIdx_sublist drive.group
        ((drive.group.map (fun join => join.user)).indexOf callerId)).map
          (fun join => join.user)) hnodup

/-- Witness for C7: creation by `userB` seeds `[u2]`; the already-joined
owner `userA` is refused; fresh `userB` joins the fixture drive keeping ids
nodup; the owner leaves it keeping ids nodup. -/
theorem group_user_ids_nodup_witness :
    (createDrive [] userB (some profileB) body0 curr0 "bbbbbbbbbbbbbbbbbbbbbbbb" 4 =
        (⟨200, .drive (newDriveDoc userB profileB body0 "bbbbbbbbbbbbbbbbbbbbbbbb" 4)⟩,
          [] ++ [newDriveDoc userB profileB body0 "bbbbbbbbbbbbbbbbbbbbbbbb" 4]) ∧
      (newDriveDoc userB profileB body0 "bbbbbbbbbbbbbbbbbbbbbbbb" 4).group.map
        (fun join => join.user) = [userB.id]) ∧
    joinDrive [drive0] userA (some profileB) driveId0 4 =
      (⟨400, .message "Drive already joined"⟩, [drive0]) ∧
    ((joinDrive [drive0] userB (some profileB) driveId0 4).2 =
        saveDrive [drive0] { drive0 with
          group := joinEntry userB profileB 4 :: drive0.group,
          seats := drive0.seats - 1 } ∧
      ((joinEntry userB profileB 4 :: drive0.group).map
        (fun join => join.user)).Nodup) ∧
    ((leaveDrive [drive0] "u1" driveId0).2 =
        saveDrive [drive0] { drive0 with
          group := drive0.group.eraseIdx
            ((drive0.group.map (fun join => join.user)).indexOf "u1"),
          seats := drive0.seats + 1 } ∧
      ((drive0.group.eraseIdx
        ((drive0.group.map (fun join => join.user)).indexOf "u1")).map
          (fun join => join.user)).Nodup) :=
  ⟨group_user_ids_nodup.1 [] userB profileB body0 curr0
      "bbbbbbbbbbbbbbbbbbbbbbbb" 4 (by decide),
    group_user_ids_nodup.2.1 [drive0] userA (some profileB) driveId0 4 drive0
      (by decide) (by decide),
    group_user_ids_nodup.2.2.1 [drive0] userB profileB driveId0 4 drive0
      (by decide) (by decide) (by decide),
    group_user_ids_nodup.2.2.2 [drive0] "u1" driveId0 drive0
      (by decide) (by decide) (by decide)⟩

/-! Step lemmas for membership sequences. -/

theorem joinDrive_success {db : DriveDb} {user : UserRec}
    {profile : Option ProfileRec} {id : String} {now : Nat} {drive : Drive}
    (hfind : findById db id = .found drive)
    (hstat : (joinDrive db user profile id now).1.status = 200) :
    ∃ d', (joinDrive db user profile id now).2 = saveDrive db d' ∧
      d'.id = drive.id ∧ d'.seats = drive.seats - 1 ∧
      d'.group.length = drive.group.length + 1 := by
  by_cases h1 : (drive.group.filter (fun join => join.user = user.id)).length > 0
  · exact absurd (by simp [joinDrive, hfind, h1] :
      (joinDrive db user profile id now).1.status = 400) (by rw [hstat]; decide)
  · by_cases h2 : drive.seats < 1
    · exact absurd (by simp [joinDrive, hfind, h1, h2] :
        (joinDrive db user profile id now).1.status = 400) (by rw [hstat]; decide)
    · cases profile with
      | none =>
        exact absurd (by simp [joinDrive, hfind, h1, h2] :
          (joinDrive db user none id now).1.status = 400) (by rw [hstat]; decide)
      | some p =>
        refine ⟨{ drive with
          group := joinEntry user p now :: drive.group,
          seats := drive.seats - 1 }, ?_, rfl, rfl, by simp⟩
        simp [joinDrive, hfind, h1, h2]

theorem leaveDrive_success {db : DriveDb} {callerId : UserId} {id : String}
    {drive : Drive}
    (hfind : findById db id = .found drive)
    (hstat : (leaveDrive db callerId id).1.status = 200) :
    ∃ d', (leaveDrive db callerId id).2 = saveDrive db d' ∧
      d'.id = drive.id ∧ d'.seats = drive.seats + 1 ∧
      d'.group.length + 1 = drive.group.length := by
  by_cases h1 : (drive.group.filter (fun join => join.user = callerId)).length = 0
  · exact absurd (by simp [leaveDrive, hfind, h1] :
      (leaveDrive db callerId id).1.status = 400) (by rw [hstat]; decide)
  · obtain ⟨j, hj, hju⟩ := exists_of_filter_length_ne_zero h1
    have hju' : j.user = callerId := by simpa using hju
    have hmem : callerId ∈ drive.group.map (fun join => join.user) :=
      List.mem_map.mpr ⟨j, hj, hju'⟩
    have hidx : (drive.group.map (fun join => join.user)).indexOf callerId <
        drive.group.length := by
      have hlt := indexOf_lt_length_of_mem hmem
      rwa [List.length_map] at hlt
    refine ⟨{ drive with
      group := drive.group.eraseIdx
        ((drive.group.map (fun join => join.user)).indexOf callerId),
      seats := drive.seats + 1 }, ?_, rfl, rfl, ?_⟩
    · simp [leaveDrive, hfind, h1]
    · show (drive.group.eraseIdx
        ((drive.group.map (fun join => join.user)).indexOf callerId)).length + 1 =
          drive.group.length
      rw [List.length_eraseIdx_of_lt hidx]
      omega

theorem applyMemberOps_counts :
    ∀ (ops : List MemberOp) (db : DriveDb) (id : String) (drive : Drive)
      (db' : DriveDb),
      findById db id = .found drive →
      applyMemberOps db id ops = some db' →
      ∃ drive', findById db' id = .found drive' ∧
        drive'.seats = drive.seats - countJoins ops + countLeaves ops ∧
        (drive'.group.length : Int) =
          drive.group.length + countJoins ops - countLeaves ops := by
  intro ops
  induction ops with
  | nil =>
    intro db id drive db' hfind happ
    simp [applyMemberOps] at happ
    subst happ
    exact ⟨drive, hfind, by simp [countJoins, countLeaves], by
      simp [countJoins, countLeaves]⟩
  | cons op rest ih =>
    intro db id drive db' hfind happ
    unfold applyMemberOps at happ
    by_cases hs : (applyMemberOp db id op).1.status = 200
    · rw [if_pos hs] at happ
      cases op with
      | join u p nowJ =>
        obtain ⟨d1, h2, hid, hseats, hlen⟩ :=
          joinDrive_success hfind (by simpa [applyMemberOp] using hs)
        have hid' : d1.id = id := by
          rw [hid]; exact (findById_found_props hfind).2
        have hfind1 : findById (saveDrive db d1) id = .found d1 :=
          findById_saveDrive hfind hid'
        rw [show (applyMemberOp db id (.join u p nowJ)).2 =
          (joinDrive db u p id nowJ).2 from rfl, h2] at happ
        obtain ⟨drive', hf', hs', hl'⟩ := ih (saveDrive db d1) id d1 db' hfind1 happ
        refine ⟨drive', hf', ?_, ?_⟩
        · simp only [countJoins, countLeaves] at *
          omega
        · simp only [countJoins, countLeaves] at *
          omega
      | leave uid =>
        obtain ⟨d1, h2, hid, hseats, hlen⟩ :=
          leaveDrive_success hfind (by simpa [applyMemberOp] using hs)
        have hid' : d1.id = id := by
          rw [hid]; exact (findById_found_props hfind).2
        have hfind1 : findById (saveDrive db d1) id = .found d1 :=
          findById_saveDrive hfind hid'
        rw [show (applyMemberOp db id (.leave uid)).2 =
          (leaveDrive db uid id).2 from rfl, h2] at happ
        obtain ⟨drive', hf', hs', hl'⟩ := ih (saveDrive db d1) id d1 db' hfind1 happ
        refine ⟨drive', hf', ?_, ?_⟩
        · simp only [countJoins, countLeaves] at *
          omega
        · simp only [countJoins, countLeaves] at *
          omega
    · rw [if_neg hs] at happ
      exact absurd happ (by simp)

/-- Claim C6: starting from a drive whose group holds the single driver
entry and whose seat count is S, any interleaving of N joins and M leaves
(N, M ≤ S) in which every request answers 200 ends with
`seats = S − N + M` and `group.length = 1 + N − M`. -/
theorem seats_group_after_member_ops (db : DriveDb) (id : String)
    (drive : Drive) (ops : List MemberOp) (db' : DriveDb)
    (hfind : findById db id = .found drive)
    (hgroup : drive.group.length = 1)
    (_hN : (countJoins ops : Int) ≤ drive.seats)
    (_hM : (countLeaves ops : Int) ≤ drive.seats)
    (happ : applyMemberOps db id ops = some db') :
    ∃ drive', findById db' id = .found drive' ∧
      drive'.seats = drive.seats - countJoins ops + countLeaves ops ∧
      (drive'.group.length : Int) = 1 + countJoins ops - countLeaves ops := by
  obtain ⟨drive', h1, h2, h3⟩ := applyMemberOps_counts ops db id drive db' hfind happ
  refine ⟨drive', h1, h2, ?_⟩
  rw [h3, hgroup]
  push_cast
  ring

/-- Witness for C6: on the fixture drive (seats 2, driver-only group),
`userB` joins and then leaves; the store returns to `[drive0]`, with
seats 2 − 1 + 1 and group length 1 + 1 − 1. -/
theorem seats_group_after_member_ops_witness :
    ∃ drive', findById [drive0] driveId0 = .found drive' ∧
      drive'.seats = drive0.seats -
        countJoins [.join userB (some profileB) 4, .leave "u2"] +
        countLeaves [.join userB (some profileB) 4, .leave "u2"] ∧
      (drive'.group.length : Int) =
        1 + countJoins [.join userB (some profileB) 4, .leave "u2"] -
          countLeaves [.join userB (some profileB) 4, .leave "u2"] :=
  seats_group_after_member_ops [drive0] driveId0 drive0
    [.join userB (some profileB) 4, .leave "u2"] [drive0]
    (by decide) (by decide) (by decide) (by decide) (by decide)

end HikingClub
